import Mathlib

/-!
Verification of the core numeric logic of the buying-vs-renting calculator
(`app.py`): the amortization solver `calculate_amortization` and the three
net-worth simulators `buying_vs_renting`, `buying_vs_renting2`,
`buying_vs_renting3`.  Python floats are embedded as exact rationals (ℚ);
the two `ValueError`s of the solver become an explicit error type, and the
`while`/`for` loops become structurally recursive functions.
-/

/-- The two `ValueError`s raised by `calculate_amortization`. -/
inductive AmortError where
  | provideExactlyOne
  | paymentTooLow
deriving DecidableEq

/-- The dict returned by `calculate_amortization`. -/
structure AmortizationResult where
  monthly_payment : ℚ
  total_interest_paid : ℚ
  total_months : ℕ
  initial_tilgung_rate : ℚ
deriving DecidableEq

/-- The `while remaining_balance > 0` depletion loop of `calculate_amortization`
(source lines 35-46).  Python's loop counter `months` is passed explicitly;
`fuel = 12000 - months` is the number of further iterations the
`if months > 1000*12: break` guard still allows, so the recursion is
structural on `fuel` and reproduces the break exactly: the iteration that
takes `months` to 12001 still runs (and may still raise), after which the
loop breaks with the accumulated count. -/
def findTermAux (monthly_interest_rate monthly_payment : ℚ) :
    ℕ → ℚ → ℕ → Except AmortError ℕ
  | fuel, remaining_balance, months =>
    if remaining_balance ≤ 0 then .ok months
    else if monthly_payment - remaining_balance * monthly_interest_rate ≤ 0 then
      .error .paymentTooLow
    else
      match fuel with
      | 0 => .ok (months + 1)
      | fuel' + 1 =>
          findTermAux monthly_interest_rate monthly_payment fuel'
            (remaining_balance -
              (monthly_payment - remaining_balance * monthly_interest_rate))
            (months + 1)

/-- The depletion loop started from `remaining_balance = loan_amount`,
`months = 0`, with the 12,000-month break guard. -/
def findTerm (monthly_interest_rate monthly_payment loan_amount : ℚ) :
    Except AmortError ℕ :=
  findTermAux monthly_interest_rate monthly_payment 12000 loan_amount 0

/-- The `for m in range(1, total_months + 1)` interest-recalculation loop of
`calculate_amortization` (source lines 54-62), returning the accumulated
`total_interest_paid`. -/
def interestLoop (monthly_interest_rate monthly_payment : ℚ) :
    ℕ → ℚ → ℚ → ℚ
  | 0, _, total_interest_paid => total_interest_paid
  | m + 1, remaining_balance, total_interest_paid =>
      let interest := remaining_balance * monthly_interest_rate
      let principal := monthly_payment - interest
      let rb := remaining_balance - principal
      interestLoop monthly_interest_rate monthly_payment m
        (if rb < 0 then 0 else rb) (total_interest_paid + interest)

/-- The common tail of `calculate_amortization` (source lines 53-72): recompute
total interest over the schedule and the first-month annualized repayment
rate, and assemble the returned record. -/
def amortResult (loan_amount monthly_interest_rate monthly_payment : ℚ)
    (total_months : ℕ) : AmortizationResult :=
  let total_interest_paid :=
    interestLoop monthly_interest_rate monthly_payment total_months loan_amount 0
  let principal_first_month :=
    monthly_payment - loan_amount * monthly_interest_rate
  { monthly_payment := monthly_payment
    total_interest_paid := total_interest_paid
    total_months := total_months
    initial_tilgung_rate := principal_first_month * 12 / loan_amount }

/-- `calculate_amortization` (source lines 23-72).  `None` arguments become
`Option`, the two `raise ValueError`s become `Except.error`. -/
def calculate_amortization (loan_amount annual_interest_rate : ℚ)
    (monthly_payment : Option ℚ) (loan_term : Option ℕ) :
    Except AmortError AmortizationResult :=
  let monthly_interest_rate := annual_interest_rate / 12
  match monthly_payment, loan_term with
  | none, some T =>
      let total_months := T * 12
      let pay :=
        if 0 < monthly_interest_rate then
          (monthly_interest_rate * loan_amount) /
            (1 - (1 + monthly_interest_rate) ^ (-(total_months : ℤ)))
        else loan_amount / (total_months : ℚ)
      .ok (amortResult loan_amount monthly_interest_rate pay total_months)
  | some pay, none =>
      (findTerm monthly_interest_rate pay loan_amount).map
        (amortResult loan_amount monthly_interest_rate pay)
  | _, _ => .error .provideExactlyOne

/-- `numpy_financial.pmt` with `fv = 0`, `when = 'end'`: the periodic payment
`-pv·rate·(1+rate)^nper / ((1+rate)^nper - 1)`, or `-pv/nper` at zero rate. -/
def npf_pmt (rate : ℚ) (nper : ℕ) (pv : ℚ) : ℚ :=
  if rate = 0 then -pv / (nper : ℚ)
  else -pv * rate * (1 + rate) ^ nper / ((1 + rate) ^ nper - 1)

/-- `numpy_financial.fv` with `when = 'end'`:
`-(pv·(1+rate)^nper + pmt·((1+rate)^nper - 1)/rate)`, or `-(pv + pmt·nper)`
at zero rate. -/
def npf_fv (rate : ℚ) (nper : ℕ) (pmt pv : ℚ) : ℚ :=
  if rate = 0 then -(pv + pmt * (nper : ℚ))
  else -(pv * (1 + rate) ^ nper + pmt * ((1 + rate) ^ nper - 1) / rate)

/-- The parameters shared by the three `buying_vs_renting*` simulators. -/
structure ScenarioParams where
  purchase_price : ℚ
  down_payment : ℚ
  refurbish : ℚ
  nebenkost_rate : ℚ
  maintenance_rate : ℚ
  property_taxes : ℚ
  initial_rent : ℚ
  loan_interest_rate : ℚ
  property_appreciation_rate : ℚ
  rent_inflation_rate : ℚ
  investment_return_rate : ℚ
  loan_term : ℕ
deriving DecidableEq

/-- `loan_amount = purchase_price - down_payment` (identical in all three
simulators). -/
def loan_amount (p : ScenarioParams) : ℚ := p.purchase_price - p.down_payment

/-- `inital_payment = purchase_price * nebenkost_rate + refurbish` (the
source's spelling). -/
def inital_payment (p : ScenarioParams) : ℚ :=
  p.purchase_price * p.nebenkost_rate + p.refurbish

/-- `monthly_payment = npf.pmt(loan_interest_rate/12, loan_term*12,
-loan_amount)`, computed once before each simulation loop. -/
def bvr_monthly_payment (p : ScenarioParams) : ℚ :=
  npf_pmt (p.loan_interest_rate / 12) (p.loan_term * 12) (-(loan_amount p))

/-- The per-month saving of the renter
(`monthly_buying_cost - monthly_rent`), identical in all three simulators:
mortgage payment plus maintenance plus taxes, minus the inflated rent. -/
def monthly_savings (p : ScenarioParams) (month : ℕ) : ℚ :=
  let monthly_maintenance := p.purchase_price * p.maintenance_rate / 12
  let monthly_taxes := p.property_taxes / 12
  let monthly_buying_cost := bvr_monthly_payment p + monthly_maintenance + monthly_taxes
  let monthly_rent := p.initial_rent * (1 + p.rent_inflation_rate / 12) ^ month
  monthly_buying_cost - monthly_rent

/-- The buy-side net-worth entry appended at `month` (identical in all three
simulators): appreciated property value minus the `npf.fv` outstanding
balance, minus the upfront cost. -/
def buy_net_worth_at (p : ScenarioParams) (month : ℕ) : ℚ :=
  let monthly_property_value :=
    p.purchase_price * (1 + p.property_appreciation_rate / 12) ^ month
  let outstanding_balance :=
    npf_fv (p.loan_interest_rate / 12) (month + 1) (bvr_monthly_payment p)
      (-(loan_amount p))
  monthly_property_value - outstanding_balance - inital_payment p

/-- Model 1 (`buying_vs_renting`) invested capital after `month` loop
iterations: the whole down payment in one pool; each month the savings delta
is added and then the monthly investment return on the new total. -/
def invested_capital1 (p : ScenarioParams) : ℕ → ℚ
  | 0 => p.down_payment
  | month + 1 =>
      let ic := invested_capital1 p month + monthly_savings p month
      ic + ic * (p.investment_return_rate / 12)

/-- Model 2 (`buying_vs_renting2`) pools `(invested_capital_ETF,
invested_capital_savings)` after `month` loop iterations: 1/4 of the down
payment to the ETF pool, 3/4 to savings earning
`max(loan_interest_rate - 0.02, 0)/12`; the savings delta goes to the ETF
pool only, before its return is applied. -/
def invested_capitals2 (p : ScenarioParams) : ℕ → ℚ × ℚ
  | 0 => (p.down_payment * 1 / 4, p.down_payment * 3 / 4)
  | month + 1 =>
      let prev := invested_capitals2 p month
      let invested_capital_ETF := prev.1 + monthly_savings p month
      let monthly_investment_return1 :=
        invested_capital_ETF * (p.investment_return_rate / 12)
      let monthly_investment_return2 :=
        prev.2 * (max (p.loan_interest_rate - 0.02) 0 / 12)
      (invested_capital_ETF + monthly_investment_return1,
       prev.2 + monthly_investment_return2)

/-- Model 3 (`buying_vs_renting3`) pools after `month` loop iterations: 1/8 of
the down payment to the ETF pool, 7/8 to savings earning
`max(min(loan_interest_rate - 0.02, 0.01), 0)/12`. -/
def invested_capitals3 (p : ScenarioParams) : ℕ → ℚ × ℚ
  | 0 => (p.down_payment * 1 / 8, p.down_payment * 7 / 8)
  | month + 1 =>
      let prev := invested_capitals3 p month
      let invested_capital_ETF := prev.1 + monthly_savings p month
      let monthly_investment_return1 :=
        invested_capital_ETF * (p.investment_return_rate / 12)
      let monthly_investment_return2 :=
        prev.2 * (max (min (p.loan_interest_rate - 0.02) 0.01) 0 / 12)
      (invested_capital_ETF + monthly_investment_return1,
       prev.2 + monthly_investment_return2)

/-- `buying_vs_renting` (source lines 75-111): buy series, rent series, month
indices, and the last monthly savings (`none` when the loop body never ran,
where the source would hit an undefined local). -/
def buying_vs_renting (p : ScenarioParams) :
    List ℚ × List ℚ × List ℕ × Option ℚ :=
  let months := p.loan_term * 12
  ((List.range months).map (fun month => buy_net_worth_at p month),
   (List.range months).map (fun month => invested_capital1 p (month + 1)),
   List.range months,
   if months = 0 then none else some (monthly_savings p (months - 1)))

/-- `buying_vs_renting2` (source lines 114-154): buy series, rent series
(`invested_capital_total` after each month), month indices. -/
def buying_vs_renting2 (p : ScenarioParams) : List ℚ × List ℚ × List ℕ :=
  let months := p.loan_term * 12
  ((List.range months).map (fun month => buy_net_worth_at p month),
   (List.range months).map (fun month =>
      (invested_capitals2 p (month + 1)).1 + (invested_capitals2 p (month + 1)).2),
   List.range months)

/-- `buying_vs_renting3` (source lines 157-197): buy series, rent series,
month indices. -/
def buying_vs_renting3 (p : ScenarioParams) : List ℚ × List ℚ × List ℕ :=
  let months := p.loan_term * 12
  ((List.range months).map (fun month => buy_net_worth_at p month),
   (List.range months).map (fun month =>
      (invested_capitals3 p (month + 1)).1 + (invested_capitals3 p (month + 1)).2),
   List.range months)

section AmortLemmas

/-- `Except.map` turns an error into the same error and nothing else into it. -/
lemma except_map_eq_error_iff (e : Except AmortError ℕ)
    (f : ℕ → AmortizationResult) (x : AmortError) :
    e.map f = .error x ↔ e = .error x := by
  cases e <;> simp [Except.map]

/-- `Except.map` of an `ok` value. -/
lemma except_map_eq_ok_iff (e : Except AmortError ℕ)
    (f : ℕ → AmortizationResult) (v : AmortizationResult) :
    e.map f = .ok v ↔ ∃ k, e = .ok k ∧ v = f k := by
  cases e <;> simp [Except.map, eq_comm]

/-- One-step exit of the depletion loop on a non-positive balance, for any
remaining break budget. -/
lemma findTermAux_of_nonpos (r pay : ℚ) (fuel : ℕ) (b : ℚ) (m : ℕ)
    (hb : b ≤ 0) : findTermAux r pay fuel b m = .ok m := by
  cases fuel <;> rw [findTermAux, if_pos hb]

/-- One-step failure of the depletion loop when the payment does not cover
the interest on the current balance. -/
lemma findTermAux_too_low (r pay : ℚ) (fuel : ℕ) (b : ℚ) (m : ℕ)
    (hb : 0 < b) (hlow : pay - b * r ≤ 0) :
    findTermAux r pay fuel b m = .error .paymentTooLow := by
  cases fuel <;> rw [findTermAux, if_neg (not_le.2 hb), if_pos hlow]

/-- The depletion loop can only raise the payment-too-low error. -/
lemma findTermAux_ne_provideExactlyOne (r pay : ℚ) :
    ∀ fuel (b : ℚ) (m : ℕ),
      findTermAux r pay fuel b m ≠ .error .provideExactlyOne := by
  intro fuel
  induction fuel with
  | zero =>
      intro b m
      rw [findTermAux]
      split_ifs <;> simp
  | succ fuel ih =>
      intro b m
      rw [findTermAux]
      split_ifs <;> simp [ih]

/-- If the payment strictly covers first-month interest on the full loan
amount, the depletion loop never raises: once the balance is at most the
original principal it stays there, and the principal part stays positive. -/
lemma findTermAux_ok_of_covers (r pay P : ℚ) (hr : 0 ≤ r) (hpay : P * r < pay) :
    ∀ fuel (b : ℚ) (m : ℕ), b ≤ P →
      ∃ k, findTermAux r pay fuel b m = .ok k := by
  intro fuel
  induction fuel with
  | zero =>
      intro b m hb
      rw [findTermAux]
      split_ifs with h1 h2
      · exact ⟨m, rfl⟩
      · exfalso
        have hbr : b * r ≤ P * r := mul_le_mul_of_nonneg_right hb hr
        have : 0 < pay - b * r := by linarith
        linarith
      · exact ⟨m + 1, rfl⟩
  | succ fuel ih =>
      intro b m hb
      rw [findTermAux]
      split_ifs with h1 h2
      · exact ⟨m, rfl⟩
      · exfalso
        have hbr : b * r ≤ P * r := mul_le_mul_of_nonneg_right hb hr
        linarith
      · have hbr : b * r ≤ P * r := mul_le_mul_of_nonneg_right hb hr
        have hprin : 0 < pay - b * r := by linarith
        exact ih (b - (pay - b * r)) (m + 1) (by linarith)

/-- Any month count the depletion loop returns is at most
`months + fuel + 1`. -/
lemma findTermAux_le (r pay : ℚ) :
    ∀ fuel (b : ℚ) (m k : ℕ),
      findTermAux r pay fuel b m = .ok k → k ≤ m + fuel + 1 := by
  intro fuel
  induction fuel with
  | zero =>
      intro b m k h
      rw [findTermAux] at h
      split_ifs at h
      · simp at h; omega
      · simp at h; omega
  | succ fuel ih =>
      intro b m k h
      rw [findTermAux] at h
      split_ifs at h
      · simp at h; omega
      · have := ih _ (m + 1) k h
        omega

/-- With zero monthly rate and a positive payment, the depletion loop runs out
of its break budget whenever the balance exceeds `fuel` payments, returning
`months + fuel + 1`. -/
lemma findTermAux_cap (pay : ℚ) (hpay : 0 < pay) :
    ∀ (fuel : ℕ) (b : ℚ) (k : ℕ), (fuel : ℚ) * pay < b →
      findTermAux 0 pay fuel b k = .ok (k + fuel + 1) := by
  intro fuel
  induction fuel with
  | zero =>
      intro b k hb
      rw [findTermAux]
      rw [if_neg (by push_cast at hb; linarith)]
      rw [if_neg (by push_cast at hb; linarith)]
  | succ fuel ih =>
      intro b k hb
      have hfb : (fuel : ℚ) * pay + pay < b := by push_cast at hb; linarith
      have hb0 : 0 < b := by
        have : (0:ℚ) ≤ (fuel : ℚ) * pay := by positivity
        linarith
      rw [findTermAux]
      rw [if_neg (by linarith), if_neg (by simp; linarith)]
      have hstep := ih (b - (pay - b * 0)) (k + 1) (by linarith)
      rw [hstep]
      congr 1
      omega

/-- With zero monthly rate, a positive payment, and a balance that is exactly
`s` payments with `s` within the break budget, the depletion loop returns
exactly `months + s`. -/
lemma findTermAux_zero_exact (pay : ℚ) (hpay : 0 < pay) :
    ∀ fuel (s : ℕ) (b : ℚ) (k : ℕ), b = s * pay → s ≤ fuel + 1 →
      findTermAux 0 pay fuel b k = .ok (k + s) := by
  intro fuel
  induction fuel with
  | zero =>
      intro s b k hb hs
      interval_cases s
      · subst hb
        rw [findTermAux]
        rw [if_pos (by push_cast; linarith)]
        rfl
      · subst hb
        rw [findTermAux]
        rw [if_neg (by push_cast; linarith)]
        rw [if_neg (by push_cast; linarith)]
  | succ fuel ih =>
      intro s b k hb hs
      match s with
      | 0 =>
          subst hb
          rw [findTermAux]
          rw [if_pos (by push_cast; linarith)]
          rfl
      | s' + 1 =>
          have hbpos : 0 < b := by
            rw [hb]; push_cast; positivity
          rw [findTermAux]
          rw [if_neg (by linarith), if_neg (by simp; linarith)]
          have hb' : b - (pay - b * 0) = (s' : ℚ) * pay := by
            rw [hb]; push_cast; ring
          have hstep := ih s' _ (k + 1) hb' (by omega)
          rw [hstep]
          congr 1
          omega

/-- At zero monthly rate no interest ever accrues in the recalculation
loop. -/
lemma interestLoop_zero_rate (pay : ℚ) :
    ∀ (n : ℕ) (b acc : ℚ), interestLoop 0 pay n b acc = acc := by
  intro n
  induction n with
  | zero => intro b acc; rfl
  | succ n ih =>
      intro b acc
      rw [interestLoop]
      simp only [mul_zero, add_zero, sub_zero]
      exact ih _ _

/-- The term-branch payment rewritten over the common denominator
`(1+r)^n - 1`. -/
lemma annuity_pay_eq (r P : ℚ) (hr : 0 < r) (n : ℕ) (hn : 1 ≤ n) :
    (r * P) / (1 - (1 + r) ^ (-(n : ℤ))) =
      r * P * (1 + r) ^ n / ((1 + r) ^ n - 1) := by
  have hA : (1 : ℚ) < (1 + r) ^ n := one_lt_pow₀ (by linarith) (by omega)
  have hA0 : ((1 : ℚ) + r) ^ n ≠ 0 := by positivity
  rw [zpow_neg, zpow_natCast]
  rw [show (1 : ℚ) - ((1 + r) ^ n)⁻¹ = ((1 + r) ^ n - 1) / (1 + r) ^ n by
    field_simp]
  rw [div_div_eq_mul_div]

/-- Fed the exact annuity payment for `n` months, the depletion loop starting
from the month-`k` closed-form balance `P·(q^n - q^k)/(q^n - 1)` (with
`q = 1 + r`) finishes with exactly `n` months, provided the break budget does
not cut it short.  The balance hits exactly zero at month `n` in exact
rational arithmetic. -/
lemma findTermAux_annuity (r P : ℚ) (hr : 0 < r) (hP : 0 < P)
    (n : ℕ) (hn : 1 ≤ n) :
    ∀ (fuel k : ℕ), k ≤ n → n ≤ k + fuel + 1 →
      findTermAux r (r * P * (1 + r) ^ n / ((1 + r) ^ n - 1)) fuel
        (P * ((1 + r) ^ n - (1 + r) ^ k) / ((1 + r) ^ n - 1)) k = .ok n := by
  have hq1 : (1 : ℚ) < 1 + r := by linarith
  have hA : (1 : ℚ) < (1 + r) ^ n := one_lt_pow₀ hq1 (by omega)
  have hD : (0 : ℚ) < (1 + r) ^ n - 1 := by linarith
  have hDne : ((1 + r) ^ n - 1 : ℚ) ≠ 0 := ne_of_gt hD
  have hbal_pos : ∀ k, k < n →
      0 < P * ((1 + r) ^ n - (1 + r) ^ k) / ((1 + r) ^ n - 1) := by
    intro k hk
    have hlt : (1 + r) ^ k < (1 + r) ^ n := pow_lt_pow_right₀ hq1 hk
    exact div_pos (mul_pos hP (by linarith)) hD
  have hprin_eq : ∀ k : ℕ,
      r * P * (1 + r) ^ n / ((1 + r) ^ n - 1) -
          P * ((1 + r) ^ n - (1 + r) ^ k) / ((1 + r) ^ n - 1) * r =
        r * P * (1 + r) ^ k / ((1 + r) ^ n - 1) := by
    intro k
    field_simp
    ring
  have hprin_pos : ∀ k : ℕ, 0 < r * P * (1 + r) ^ k / ((1 + r) ^ n - 1) := by
    intro k
    have : (0 : ℚ) < (1 + r) ^ k := by positivity
    exact div_pos (by positivity) hD
  have hprin : ∀ k : ℕ,
      ¬ (r * P * (1 + r) ^ n / ((1 + r) ^ n - 1) -
          P * ((1 + r) ^ n - (1 + r) ^ k) / ((1 + r) ^ n - 1) * r ≤ 0) := by
    intro k
    rw [hprin_eq k]
    exact not_le.2 (hprin_pos k)
  have hstep : ∀ k : ℕ,
      P * ((1 + r) ^ n - (1 + r) ^ k) / ((1 + r) ^ n - 1) -
          (r * P * (1 + r) ^ n / ((1 + r) ^ n - 1) -
            P * ((1 + r) ^ n - (1 + r) ^ k) / ((1 + r) ^ n - 1) * r) =
        P * ((1 + r) ^ n - (1 + r) ^ (k + 1)) / ((1 + r) ^ n - 1) := by
    intro k
    rw [pow_succ]
    field_simp
    ring
  intro fuel
  induction fuel with
  | zero =>
      intro k hk hk2
      rcases eq_or_lt_of_le hk with heq | hlt
      · subst heq
        apply findTermAux_of_nonpos
        simp
      · have hkn : k + 1 = n := by omega
        rw [findTermAux]
        rw [if_neg (not_le.2 (hbal_pos k hlt)), if_neg (hprin k), hkn]
  | succ fuel ih =>
      intro k hk hk2
      rcases eq_or_lt_of_le hk with heq | hlt
      · subst heq
        apply findTermAux_of_nonpos
        simp
      · rw [findTermAux]
        rw [if_neg (not_le.2 (hbal_pos k hlt)), if_neg (hprin k)]
        rw [hstep k]
        exact ih (k + 1) (by omega) (by omega)

end AmortLemmas

section SimLemmas

/-- Model 2's conservative pool never receives contributions: it is the 3/4
share of the down payment compounded by its capped spread rate. -/
lemma invested_capitals2_snd (p : ScenarioParams) :
    ∀ m : ℕ, (invested_capitals2 p m).2 =
      p.down_payment * 3 / 4 *
        (1 + max (p.loan_interest_rate - 0.02) 0 / 12) ^ m := by
  intro m
  induction m with
  | zero => simp [invested_capitals2]
  | succ m ih =>
      simp only [invested_capitals2]
      rw [ih, pow_succ]
      ring

/-- Model 3's conservative pool never receives contributions: it is the 7/8
share of the down payment compounded by its capped and floored spread rate. -/
lemma invested_capitals3_snd (p : ScenarioParams) :
    ∀ m : ℕ, (invested_capitals3 p m).2 =
      p.down_payment * 7 / 8 *
        (1 + max (min (p.loan_interest_rate - 0.02) 0.01) 0 / 12) ^ m := by
  intro m
  induction m with
  | zero => simp [invested_capitals3]
  | succ m ih =>
      simp only [invested_capitals3]
      rw [ih, pow_succ]
      ring

/-- The growth pools of models 1 and 2 receive identical contributions, so
their difference is the initial difference compounded at the investment
rate. -/
lemma etf_diff_12 (p : ScenarioParams) :
    ∀ m : ℕ, invested_capital1 p m - (invested_capitals2 p m).1 =
      (p.down_payment - p.down_payment * 1 / 4) *
        (1 + p.investment_return_rate / 12) ^ m := by
  intro m
  induction m with
  | zero => simp [invested_capital1, invested_capitals2]
  | succ m ih =>
      simp only [invested_capital1, invested_capitals2]
      rw [pow_succ]
      linear_combination (1 + p.investment_return_rate / 12) * ih

/-- Same for the growth pools of models 2 and 3. -/
lemma etf_diff_23 (p : ScenarioParams) :
    ∀ m : ℕ, (invested_capitals2 p m).1 - (invested_capitals3 p m).1 =
      (p.down_payment * 1 / 4 - p.down_payment * 1 / 8) *
        (1 + p.investment_return_rate / 12) ^ m := by
  intro m
  induction m with
  | zero => simp [invested_capitals2, invested_capitals3]
  | succ m ih =>
      simp only [invested_capitals2, invested_capitals3]
      rw [pow_succ]
      linear_combination (1 + p.investment_return_rate / 12) * ih

/-- Pool-total ordering Conservative ≤ Balanced ≤ Optimistic after any number
of months, for a nonnegative down payment and an investment return above the
capped spread. -/
lemma rent_total_order (p : ScenarioParams)
    (hd : 0 ≤ p.down_payment)
    (hi : max (p.loan_interest_rate - 0.02) 0 < p.investment_return_rate) :
    ∀ m : ℕ,
      (invested_capitals3 p m).1 + (invested_capitals3 p m).2 ≤
        (invested_capitals2 p m).1 + (invested_capitals2 p m).2 ∧
      (invested_capitals2 p m).1 + (invested_capitals2 p m).2 ≤
        invested_capital1 p m := by
  intro m
  have hc2 : (0:ℚ) ≤ max (p.loan_interest_rate - 0.02) 0 := le_max_right _ _
  have hc3 : (0:ℚ) ≤ max (min (p.loan_interest_rate - 0.02) 0.01) 0 :=
    le_max_right _ _
  have hc3c2 : max (min (p.loan_interest_rate - 0.02) 0.01) 0 ≤
      max (p.loan_interest_rate - 0.02) 0 :=
    max_le_max (min_le_left _ _) le_rfl
  have pos3 : (0:ℚ) ≤ 1 + max (min (p.loan_interest_rate - 0.02) 0.01) 0 / 12 := by
    linarith
  have pow32 : (1 + max (min (p.loan_interest_rate - 0.02) 0.01) 0 / 12) ^ m ≤
      (1 + max (p.loan_interest_rate - 0.02) 0 / 12) ^ m :=
    pow_le_pow_left₀ pos3 (by linarith) m
  have pow3i : (1 + max (min (p.loan_interest_rate - 0.02) 0.01) 0 / 12) ^ m ≤
      (1 + p.investment_return_rate / 12) ^ m :=
    pow_le_pow_left₀ pos3 (by linarith) m
  have pow2i : (1 + max (p.loan_interest_rate - 0.02) 0 / 12) ^ m ≤
      (1 + p.investment_return_rate / 12) ^ m :=
    pow_le_pow_left₀ (by linarith) (by linarith) m
  have h12 := etf_diff_12 p m
  have h23 := etf_diff_23 p m
  have hs2 := invested_capitals2_snd p m
  have hs3 := invested_capitals3_snd p m
  constructor
  · nlinarith [mul_nonneg hd (sub_nonneg.2 pow3i),
      mul_nonneg hd (sub_nonneg.2 pow32)]
  · nlinarith [mul_nonneg hd (sub_nonneg.2 pow2i)]

/-- Last element of a mapped range. -/
lemma map_range_getLast (f : ℕ → ℚ) (n : ℕ) (hn : 0 < n) :
    ((List.range n).map f).getLast? = some (f (n - 1)) := by
  obtain ⟨k, rfl⟩ : ∃ k, n = k + 1 := ⟨n - 1, by omega⟩
  rw [List.range_succ, List.map_append, List.map_singleton,
    List.getLast?_concat]
  norm_num

end SimLemmas

section Claims

/-- Claim C1: with `monthly_payment` absent and `loan_term = T` supplied,
`calculate_amortization` returns the closed-form annuity payment
`r·P / (1 - (1+r)^(-n))` with `r = rate/12`, `n = 12·T` when `r > 0`, and the
straight-line payment `P/n` when `r = 0` (the only other case under
`rate ≥ 0`). -/
theorem term_branch_payment_formula (P rate : ℚ) (T : ℕ)
    (_hP : 0 < P) (_hr : 0 ≤ rate) (_hT : 1 ≤ T) :
    (calculate_amortization P rate none (some T)).map
        AmortizationResult.monthly_payment =
      .ok (if 0 < rate / 12 then
            (rate / 12 * P) / (1 - (1 + rate / 12) ^ (-(12 * T : ℤ)))
          else P / (12 * T : ℚ)) := by
  rw [calculate_amortization]
  simp only [Except.map, amortResult]
  have h1 : ((T * 12 : ℕ) : ℤ) = 12 * (T : ℤ) := by push_cast; ring
  have h2 : ((T * 12 : ℕ) : ℚ) = 12 * (T : ℚ) := by push_cast; ring
  rw [h1, h2]

/-- Witness for C1 at `P = 300000`, `rate = 1/25`, `T = 30`. -/
theorem term_branch_payment_formula_witness :
    (calculate_amortization 300000 (1/25) none (some 30)).map
        AmortizationResult.monthly_payment =
      .ok (if 0 < (1/25 : ℚ) / 12 then
            ((1/25 : ℚ) / 12 * 300000) /
              (1 - (1 + (1/25 : ℚ) / 12) ^ (-(12 * 30 : ℤ)))
          else 300000 / (12 * 30 : ℚ)) :=
  term_branch_payment_formula 300000 (1/25) 30 (by norm_num) (by norm_num)
    (by norm_num)

/-- Claim C2: `calculate_amortization` fails with the provide-exactly-one
error precisely when both or neither of `monthly_payment` / `loan_term` are
supplied; with exactly one supplied that error never occurs. -/
theorem provide_exactly_one_iff (P rate : ℚ) (mp : Option ℚ) (lt : Option ℕ) :
    calculate_amortization P rate mp lt = .error .provideExactlyOne ↔
      ((mp ≠ none ∧ lt ≠ none) ∨ (mp = none ∧ lt = none)) := by
  cases mp with
  | none =>
      cases lt with
      | none => simp [calculate_amortization]
      | some T => simp [calculate_amortization]
  | some pay =>
      cases lt with
      | none =>
          rw [calculate_amortization]
          simp only [ne_eq, reduceCtorEq, not_false_eq_true, true_and,
            false_and, or_false]
          rw [except_map_eq_error_iff, findTerm]
          simp [findTermAux_ne_provideExactlyOne]
      | some T => simp [calculate_amortization]

/-- Claim C3: with a payment supplied and a positive loan, the
payment-too-low error is raised exactly when the payment does not exceed the
first month's interest `P·(rate/12)`. -/
theorem payment_too_low_iff (P rate pay : ℚ) (hP : 0 < P) (hr : 0 ≤ rate) :
    calculate_amortization P rate (some pay) none = .error .paymentTooLow ↔
      pay ≤ P * (rate / 12) := by
  rw [calculate_amortization]
  rw [except_map_eq_error_iff, findTerm]
  constructor
  · intro h
    by_contra hgt
    rw [not_le] at hgt
    obtain ⟨k, hk⟩ :=
      findTermAux_ok_of_covers (rate / 12) pay P (by positivity) hgt 12000 P 0
        le_rfl
    rw [hk] at h
    exact absurd h (by simp)
  · intro h
    exact findTermAux_too_low (rate / 12) pay 12000 P 0 hP (by linarith)

/-- Witness for C3 at `P = 100`, `rate = 12`, `pay = 50` (payment below the
first-month interest of 100). -/
theorem payment_too_low_iff_witness :
    calculate_amortization 100 12 (some 50) none = .error .paymentTooLow ↔
      (50 : ℚ) ≤ 100 * (12 / 12) :=
  payment_too_low_iff 100 12 50 (by norm_num) (by norm_num)

/-- Claim C5 (amended): the payment-known iterative solve always terminates
and any month count it returns is at most 12,001 — one more than the
12,000-month guard, because the iteration that raises the counter past the
guard still completes and its count is returned as the result. -/
theorem payment_solve_months_bound (P rate pay : ℚ) (res : AmortizationResult)
    (h : calculate_amortization P rate (some pay) none = .ok res) :
    res.total_months ≤ 12001 := by
  rw [calculate_amortization, except_map_eq_ok_iff] at h
  obtain ⟨k, hk, hres⟩ := h
  rw [findTerm] at hk
  have hb := findTermAux_le (rate / 12) pay 12000 P 0 k hk
  subst hres
  show k ≤ 12001
  omega

/-- Witness for C5's bound at `P = -1`, `rate = 0`, `pay = 1` (loop exits
immediately with zero months). -/
theorem payment_solve_months_bound_witness :
    (⟨1, 0, 0, -12⟩ : AmortizationResult).total_months ≤ 12001 :=
  payment_solve_months_bound (-1) 0 1 ⟨1, 0, 0, -12⟩ (by
    rw [calculate_amortization, findTerm,
      findTermAux_of_nonpos _ _ _ _ _ (by norm_num)]
    simp only [Except.map, amortResult, interestLoop]
    norm_num)

/-- Counterexample to C5 as stated: with `P = 20000`, zero rate and payment 1
the loop hits the guard and returns 12,001 months — strictly more than the
12,000-month cap the claim asserts is never exceeded. -/
theorem payment_solve_cap_exceeded :
    (calculate_amortization 20000 0 (some 1) none).map
        AmortizationResult.total_months = .ok 12001 ∧
      ¬ (12001 ≤ 12000) := by
  constructor
  · rw [calculate_amortization]
    rw [show ((0 : ℚ) / 12) = 0 from by norm_num]
    have hcap := findTermAux_cap 1 (by norm_num) 12000 20000 0 (by norm_num)
    rw [findTerm, hcap]
    rfl
  · omega

/-- Claim C6: at zero annual rate the derived payment is exactly
`P / (12·T)` and the recomputed total interest is exactly 0. -/
theorem zero_rate_payment_and_interest (P : ℚ) (T : ℕ)
    (_hP : 0 < P) (_hT : 1 ≤ T) :
    (calculate_amortization P 0 none (some T)).map
        (fun res => (res.monthly_payment, res.total_interest_paid)) =
      .ok (P / (12 * T : ℚ), 0) := by
  rw [calculate_amortization]
  simp only [zero_div]
  rw [if_neg (by norm_num)]
  rw [amortResult]
  simp only [Except.map, interestLoop_zero_rate]
  have : ((T * 12 : ℕ) : ℚ) = (12 * T : ℚ) := by push_cast; ring
  rw [this]

/-- Witness for C6 at `P = 240`, `T = 2`. -/
theorem zero_rate_payment_and_interest_witness :
    (calculate_amortization 240 0 none (some 2)).map
        (fun res => (res.monthly_payment, res.total_interest_paid)) =
      .ok (240 / (12 * 2 : ℚ), 0) :=
  zero_rate_payment_and_interest 240 2 (by norm_num) (by norm_num)

/-- Claim C10: with a negative loan amount and a payment supplied, the
depletion loop body never runs: the call returns normally with zero months
and zero total interest, raising neither error. -/
theorem negative_loan_returns_zero_months (P rate pay : ℚ) (hP : P < 0) :
    (calculate_amortization P rate (some pay) none).map
        (fun res => (res.total_months, res.total_interest_paid)) =
      .ok (0, 0) := by
  rw [calculate_amortization, findTerm,
    findTermAux_of_nonpos _ _ _ _ _ (le_of_lt hP)]
  rfl

/-- Witness for C10 at `P = -5`, `rate = 1/10`, `pay = 3`. -/
theorem negative_loan_returns_zero_months_witness :
    (calculate_amortization (-5) (1/10) (some 3) none).map
        (fun res => (res.total_months, res.total_interest_paid)) =
      .ok (0, 0) :=
  negative_loan_returns_zero_months (-5) (1/10) 3 (by norm_num)

/-- Claim C4 (amended): for terms up to 1000 years (so that `12·T` months fit
under the 12,000-month break guard) the round trip is exact: solving with
`loan_term = T` and re-solving with the derived payment recovers
`total_months = 12·T` exactly in exact rational arithmetic (hence within the
claimed ±1).  Beyond `T = 1000` the guard truncates the recovered term (see
the counterexample). -/
theorem round_trip_recovers_term (P rate : ℚ) (T : ℕ)
    (hP : 0 < P) (hr : 0 ≤ rate) (hT1 : 1 ≤ T) (hT2 : T ≤ 1000) :
    ∃ res1 res2,
      calculate_amortization P rate none (some T) = .ok res1 ∧
      calculate_amortization P rate (some res1.monthly_payment) none =
        .ok res2 ∧
      res2.total_months = 12 * T := by
  rcases hr.lt_or_eq with hrpos | hrzero
  · -- positive annual rate: exact annuity payment, closed-form balances
    have hr12 : 0 < rate / 12 := by positivity
    have h1 : calculate_amortization P rate none (some T) =
        .ok (amortResult P (rate / 12)
          ((rate / 12 * P) / (1 - (1 + rate / 12) ^ (-((T * 12 : ℕ) : ℤ))))
          (T * 12)) := by
      rw [calculate_amortization, if_pos hr12]
    have hpay_eq : (rate / 12 * P) /
          (1 - (1 + rate / 12) ^ (-((T * 12 : ℕ) : ℤ))) =
        rate / 12 * P * (1 + rate / 12) ^ (T * 12) /
          ((1 + rate / 12) ^ (T * 12) - 1) :=
      annuity_pay_eq (rate / 12) P hr12 (T * 12) (by omega)
    have hloop := findTermAux_annuity (rate / 12) P hr12 hP (T * 12)
      (by omega) 12000 0 (by omega) (by omega)
    have hb0 : P * ((1 + rate / 12) ^ (T * 12) - (1 + rate / 12) ^ 0) /
        ((1 + rate / 12) ^ (T * 12) - 1) = P := by
      have hA : (1 : ℚ) < (1 + rate / 12) ^ (T * 12) :=
        one_lt_pow₀ (by linarith) (by omega)
      rw [pow_zero, mul_div_assoc,
        div_self (ne_of_gt
          (by linarith : (0 : ℚ) < (1 + rate / 12) ^ (T * 12) - 1)),
        mul_one]
    rw [hb0] at hloop
    refine ⟨_, amortResult P (rate / 12)
        (rate / 12 * P * (1 + rate / 12) ^ (T * 12) /
          ((1 + rate / 12) ^ (T * 12) - 1)) (T * 12), h1, ?_, ?_⟩
    · rw [show (amortResult P (rate / 12)
          ((rate / 12 * P) / (1 - (1 + rate / 12) ^ (-((T * 12 : ℕ) : ℤ))))
          (T * 12)).monthly_payment =
          (rate / 12 * P) / (1 - (1 + rate / 12) ^ (-((T * 12 : ℕ) : ℤ)))
          from rfl]
      rw [calculate_amortization, findTerm, hpay_eq, hloop]
      rfl
    · show T * 12 = 12 * T
      omega
  · -- zero annual rate: straight-line payment depletes in exactly 12·T steps
    subst hrzero
    have h1 : calculate_amortization P 0 none (some T) =
        .ok (amortResult P (0 / 12) (P / ((T * 12 : ℕ) : ℚ)) (T * 12)) := by
      rw [calculate_amortization, if_neg (by norm_num)]
    have hnQ : (0 : ℚ) < ((T * 12 : ℕ) : ℚ) := by
      exact_mod_cast (by omega : 0 < T * 12)
    have hppos : 0 < P / ((T * 12 : ℕ) : ℚ) := div_pos hP hnQ
    have hloop := findTermAux_zero_exact (P / ((T * 12 : ℕ) : ℚ)) hppos
      12000 (T * 12) P 0 (by field_simp) (by omega)
    refine ⟨_, amortResult P 0 (P / ((T * 12 : ℕ) : ℚ)) (0 + T * 12),
      h1, ?_, ?_⟩
    · rw [show (amortResult P (0 / 12) (P / ((T * 12 : ℕ) : ℚ))
          (T * 12)).monthly_payment = P / ((T * 12 : ℕ) : ℚ) from rfl]
      rw [calculate_amortization, findTerm,
        show ((0 : ℚ) / 12) = 0 from by norm_num, hloop]
      rfl
    · show 0 + T * 12 = 12 * T
      omega

/-- Witness for C4 at `P = 300000`, `rate = 1/25`, `T = 30`. -/
theorem round_trip_recovers_term_witness :
    ∃ res1 res2,
      calculate_amortization 300000 (1/25) none (some 30) = .ok res1 ∧
      calculate_amortization 300000 (1/25) (some res1.monthly_payment) none =
        .ok res2 ∧
      res2.total_months = 12 * 30 :=
  round_trip_recovers_term 300000 (1/25) 30 (by norm_num) (by norm_num)
    (by norm_num) (by norm_num)

/-- Counterexample to C4 as stated: at `P = 12012`, zero rate, `T = 1001`
the derived payment is 1, but re-solving hits the month guard and returns
12,001 months — 11 months short of `12·1001 = 12012`, violating the claimed
±1 bound. -/
theorem round_trip_cap_cex :
    (calculate_amortization 12012 0 none (some 1001)).map
        AmortizationResult.monthly_payment = .ok 1 ∧
    (calculate_amortization 12012 0 (some 1) none).map
        AmortizationResult.total_months = .ok 12001 ∧
    ¬ ((12001 : ℤ) - 12 * 1001 ≤ 1 ∧ (12 * 1001 : ℤ) - 12001 ≤ 1) := by
  refine ⟨?_, ?_, by omega⟩
  · rw [calculate_amortization, if_neg (by norm_num)]
    simp only [Except.map, amortResult]
    norm_num
  · rw [calculate_amortization, findTerm,
      show ((0 : ℚ) / 12) = 0 from by norm_num,
      findTermAux_cap 1 (by norm_num) 12000 12012 0 (by norm_num)]
    rfl

/-- Claim C7: in every month of every simulation the savings delta is added
to the growth pool (the sole pool in the optimistic model) before that
pool's return is computed on the new total, and the conservative pool never
receives a contribution: after `m` months it is exactly its share of the
down payment compounded by its capped/floored spread rate. -/
theorem savings_contribution_order (p : ScenarioParams) (m : ℕ) :
    invested_capital1 p (m + 1) =
      (invested_capital1 p m + monthly_savings p m) *
        (1 + p.investment_return_rate / 12) ∧
    (invested_capitals2 p (m + 1)).1 =
      ((invested_capitals2 p m).1 + monthly_savings p m) *
        (1 + p.investment_return_rate / 12) ∧
    (invested_capitals3 p (m + 1)).1 =
      ((invested_capitals3 p m).1 + monthly_savings p m) *
        (1 + p.investment_return_rate / 12) ∧
    (invested_capitals2 p m).2 =
      p.down_payment * 3 / 4 *
        (1 + max (p.loan_interest_rate - 0.02) 0 / 12) ^ m ∧
    (invested_capitals3 p m).2 =
      p.down_payment * 7 / 8 *
        (1 + max (min (p.loan_interest_rate - 0.02) 0.01) 0 / 12) ^ m := by
  refine ⟨?_, ?_, ?_, invested_capitals2_snd p m, invested_capitals3_snd p m⟩
  · simp only [invested_capital1]
    ring
  · simp only [invested_capitals2]
    ring
  · simp only [invested_capitals3]
    ring

/-- Claim C8: with identical parameters, nonnegative down payment and an
investment return above the capped spread `max(loan_rate - 0.02, 0)`, the
final rent-side net worth satisfies Conservative ≤ Balanced ≤ Optimistic. -/
theorem rent_policy_ordering (p : ScenarioParams)
    (hd : 0 ≤ p.down_payment)
    (hi : max (p.loan_interest_rate - 0.02) 0 < p.investment_return_rate)
    (hT : 1 ≤ p.loan_term) :
    ∃ a b c,
      ((buying_vs_renting p).2.1).getLast? = some a ∧
      ((buying_vs_renting2 p).2.1).getLast? = some b ∧
      ((buying_vs_renting3 p).2.1).getLast? = some c ∧
      c ≤ b ∧ b ≤ a := by
  have hm : 0 < p.loan_term * 12 := by omega
  have horder := rent_total_order p hd hi (p.loan_term * 12 - 1 + 1)
  refine ⟨_, _, _, ?_, ?_, ?_, horder.1, horder.2⟩
  · simp only [buying_vs_renting]
    exact map_range_getLast _ _ hm
  · simp only [buying_vs_renting2]
    exact map_range_getLast _ _ hm
  · simp only [buying_vs_renting3]
    exact map_range_getLast _ _ hm

/-- Witness for C8 at the documented default scenario (price 400000, down
payment 100000, loan rate 0.04, investment return 0.04, 25-year term). -/
theorem rent_policy_ordering_witness :
    ∃ a b c,
      ((buying_vs_renting ⟨400000, 100000, 20000, 0.1, 0.015, 1200, 1000,
          0.04, 0.01, 0.002, 0.04, 25⟩).2.1).getLast? = some a ∧
      ((buying_vs_renting2 ⟨400000, 100000, 20000, 0.1, 0.015, 1200, 1000,
          0.04, 0.01, 0.002, 0.04, 25⟩).2.1).getLast? = some b ∧
      ((buying_vs_renting3 ⟨400000, 100000, 20000, 0.1, 0.015, 1200, 1000,
          0.04, 0.01, 0.002, 0.04, 25⟩).2.1).getLast? = some c ∧
      c ≤ b ∧ b ≤ a :=
  rent_policy_ordering _ (by norm_num) (by norm_num [max_def]) (by norm_num)

/-- Claim C9: the rent-side series of all three simulators does not depend on
`property_appreciation_rate`, `nebenkost_rate` or `refurbish` — those
parameters only enter the buy-side series. -/
theorem rent_side_noninterference (p q : ScenarioParams)
    (h1 : p.purchase_price = q.purchase_price)
    (h2 : p.down_payment = q.down_payment)
    (h3 : p.maintenance_rate = q.maintenance_rate)
    (h4 : p.property_taxes = q.property_taxes)
    (h5 : p.initial_rent = q.initial_rent)
    (h6 : p.loan_interest_rate = q.loan_interest_rate)
    (h7 : p.rent_inflation_rate = q.rent_inflation_rate)
    (h8 : p.investment_return_rate = q.investment_return_rate)
    (h9 : p.loan_term = q.loan_term) :
    (buying_vs_renting p).2.1 = (buying_vs_renting q).2.1 ∧
    (buying_vs_renting2 p).2.1 = (buying_vs_renting2 q).2.1 ∧
    (buying_vs_renting3 p).2.1 = (buying_vs_renting3 q).2.1 := by
  have hms : ∀ m, monthly_savings p m = monthly_savings q m := by
    intro m
    simp only [monthly_savings, bvr_monthly_payment, loan_amount,
      h1, h2, h3, h4, h5, h6, h7, h9]
  have hic1 : ∀ m, invested_capital1 p m = invested_capital1 q m := by
    intro m
    induction m with
    | zero => simp [invested_capital1, h2]
    | succ m ih => simp only [invested_capital1]; rw [ih, hms, h8]
  have hic2 : ∀ m, invested_capitals2 p m = invested_capitals2 q m := by
    intro m
    induction m with
    | zero => simp [invested_capitals2, h2]
    | succ m ih => simp only [invested_capitals2]; rw [ih, hms, h8, h6]
  have hic3 : ∀ m, invested_capitals3 p m = invested_capitals3 q m := by
    intro m
    induction m with
    | zero => simp [invested_capitals3, h2]
    | succ m ih => simp only [invested_capitals3]; rw [ih, hms, h8, h6]
  refine ⟨?_, ?_, ?_⟩
  · simp only [buying_vs_renting, h9]
    exact List.map_congr_left (fun m _ => by rw [hic1])
  · simp only [buying_vs_renting2, h9]
    exact List.map_congr_left (fun m _ => by rw [hic2])
  · simp only [buying_vs_renting3, h9]
    exact List.map_congr_left (fun m _ => by rw [hic3])

/-- Witness for C9: two parameter sets differing only in refurbish cost,
nebenkost rate and appreciation rate produce identical rent series. -/
theorem rent_side_noninterference_witness :
    (buying_vs_renting ⟨400000, 100000, 20000, 0.1, 0.015, 1200, 1000,
        0.04, 0.01, 0.002, 0.04, 2⟩).2.1 =
      (buying_vs_renting ⟨400000, 100000, 50000, 0.2, 0.015, 1200, 1000,
        0.04, 0.03, 0.002, 0.04, 2⟩).2.1 ∧
    (buying_vs_renting2 ⟨400000, 100000, 20000, 0.1, 0.015, 1200, 1000,
        0.04, 0.01, 0.002, 0.04, 2⟩).2.1 =
      (buying_vs_renting2 ⟨400000, 100000, 50000, 0.2, 0.015, 1200, 1000,
        0.04, 0.03, 0.002, 0.04, 2⟩).2.1 ∧
    (buying_vs_renting3 ⟨400000, 100000, 20000, 0.1, 0.015, 1200, 1000,
        0.04, 0.01, 0.002, 0.04, 2⟩).2.1 =
      (buying_vs_renting3 ⟨400000, 100000, 50000, 0.2, 0.015, 1200, 1000,
        0.04, 0.03, 0.002, 0.04, 2⟩).2.1 :=
  rent_side_noninterference _ _ rfl rfl rfl rfl rfl rfl rfl rfl rfl

end Claims
